import Mathlib

/-!
# Verification of the payment-provider core (yuno-assesment)

A shallow embedding, in Lean 4, of the provider abstraction layer of the
repository: the domain model (`Payment`, `PaymentError`), the two provider
adapters (`ProviderA`, `ProviderB`), the provider registry (`Factory`) with
its per-provider health state, and the batch dispatcher
(`Factory.BatchProcessPayments`).

Modelling conventions, fixed once for the whole file:

* Go `float64` amounts are modelled as `Rat`.  No claim checked here depends
  on binary floating-point rounding; only order comparisons (`<= 0`,
  `> MaxAmount`) and pass-through of parsed values occur on the paths
  modelled.
* Go `time.Time` instants are modelled as `Int`, counting seconds since Go's
  zero time (January 1, year 1 UTC).  The zero value of `time.Time` is `0`,
  and `t.IsZero()` is `t = 0`.  `time.Unix(s, 0)` is `s + unixToInternal`
  where `unixToInternal = 62135596800` (the Unix epoch in this encoding).
* The HTTP exchange performed by `httpClient.Do` plus `io.ReadAll` plus
  `json.Unmarshal` is modelled by a `WireResult` value supplied as an
  explicit argument: either a transport-level failure, or a response with a
  status code, a body-read-failure flag, and the body as seen through each
  provider's response schema (`encoding/json` semantics: a body that does
  not unmarshal into the schema is `malformed`; fields absent from the JSON
  take their zero values).  `ProviderB`'s `value.amount` field is a JSON
  string fed to `strconv.ParseFloat`; the model carries the result of that
  parse as an `Option Rat` (`none` = the string does not parse as a number).
* Go maps keyed by strings are modelled as association lists with an
  insert-or-replace update, so each key occurs at most once when updates go
  through `AssocList.insert`.
* `json.Marshal` of a `map[string]interface{}` holding a number and a
  string, and `http.NewRequestWithContext` with a constant method, cannot
  fail on the values the adapters pass; those two error branches of the
  source are unreachable for the modelled inputs and are not represented.
* Logging calls are side-effect-free for every property here and are not
  represented.
-/

namespace Yuno

/-- Error codes, from `internal/domain` (`errors.go` constants). -/
def ErrCardDeclined : String := "CARD_DECLINED"

def ErrInvalidAmount : String := "INVALID_AMOUNT"

def ErrInvalidCurrency : String := "INVALID_CURRENCY"

def ErrProviderNotFound : String := "PROVIDER_NOT_FOUND"

def ErrProviderUnavailable : String := "PROVIDER_UNAVAILABLE"

def ErrProviderTimeout : String := "PROVIDER_TIMEOUT"

def ErrProviderInvalidResp : String := "PROVIDER_INVALID_RESPONSE"

def ErrInvalidConfiguration : String := "INVALID_CONFIGURATION"

def ErrNetworkError : String := "NETWORK_ERROR"

def ErrInternalError : String := "INTERNAL_ERROR"

def ErrRateLimitExceeded : String := "RATE_LIMIT_EXCEEDED"

/-- `domain.StatusApproved`. -/
def StatusApproved : String := "APPROVED"

/-- `time.Unix(s, 0)` in the seconds-since-year-1 encoding of instants. -/
def unixToInternal : Int := 62135596800

/-- `domain.PaymentError` (the fields the core reads and writes;
`Details` diagnostics are carried as an uninterpreted string). -/
structure PaymentError where
  code : String
  message : String := ""
  provider : String := ""
  details : String := ""
  retryable : Bool := false
  httpStatus : Nat := 0
deriving Repr, DecidableEq

/-- `domain.Payment` (the fields the adapters populate; the optional
fields of the Go struct that no code path writes are omitted). -/
structure Payment where
  id : String
  amount : Rat
  currency : String
  status : String
  provider : String
  timestamp : Int
deriving Repr, DecidableEq

/-- `config.PaymentProviderConfig` (the fields the core reads; the
carried-but-uninterpreted `RetryPolicy`/`RateLimit` records are omitted). -/
structure PaymentProviderConfig where
  name : String := ""
  endpoint : String := ""
  timeout : Int := 0
  retryCount : Nat := 0
  maxAmount : Rat := 0
  description : String := ""
deriving Repr, DecidableEq

/-- ProviderA's response schema (`transaction_id`, `status`, `amount`,
`currency`, `timestamp`), after a successful `json.Unmarshal`.  Fields
missing from the JSON body hold their Go zero values; in particular a
missing `timestamp` is the zero instant `0`. -/
structure AResponse where
  transactionId : String := ""
  status : String := ""
  amount : Rat := 0
  currency : String := ""
  timestamp : Int := 0
deriving Repr, DecidableEq

/-- ProviderB's response schema (`paymentId`, `state`,
`value.amount`, `value.currencyCode`, `processedAt`), after a successful
`json.Unmarshal`.  `valueAmount` is the result of
`strconv.ParseFloat(response.Value.Amount, 64)`: `none` when the string
(e.g. the empty string of a missing field) does not parse as a number. -/
structure BResponse where
  paymentId : String := ""
  state : String := ""
  valueAmount : Option Rat := none
  currencyCode : String := ""
  processedAt : Int := 0
deriving Repr, DecidableEq

/-- A response body as seen through one provider's schema: either
`json.Unmarshal` fails, or it yields the schema record. -/
inductive BodyView (α : Type) where
  | malformed
  | parsed (r : α)
deriving Repr, DecidableEq

/-- The outcome of the HTTP exchange a single `ProcessPayment` call
performs: a transport failure from `httpClient.Do` (with whether its error
text is exactly "context deadline exceeded"), or a response carrying the
status code, whether `io.ReadAll` on the body fails, and the body under
each provider's schema. -/
inductive WireResult where
  | netFail (deadlineExceeded : Bool)
  | resp (status : Nat) (readErr : Bool) (bodyA : BodyView AResponse) (bodyB : BodyView BResponse)
deriving Repr, DecidableEq

namespace ProviderA

/-- ProviderA, lines 526–590 of the adapter: unmarshal the body, validate
the required fields (`transaction_id`, `status`, `currency` non-empty) and
the timestamp (non-zero), then `switch` on the `status` discriminator. -/
def handleBody (cfg : PaymentProviderConfig) (bodyA : BodyView AResponse) :
    Option Payment × Option PaymentError :=
  match bodyA with
  | .malformed =>
      (none, some { code := ErrProviderInvalidResp, message := "Failed to parse response",
                    provider := cfg.name, retryable := false })
  | .parsed r =>
      if r.transactionId = "" ∨ r.status = "" ∨ r.currency = "" then
        (none, some { code := ErrProviderInvalidResp,
                      message := "Missing required fields in response",
                      provider := cfg.name, retryable := false })
      else if r.timestamp = 0 then
        (none, some { code := ErrProviderInvalidResp,
                      message := "Invalid timestamp in response",
                      provider := cfg.name, retryable := false })
      else if r.status = "APPROVED" then
        (some { id := r.transactionId, amount := r.amount, currency := r.currency,
                status := r.status, provider := cfg.name, timestamp := r.timestamp },
         none)
      else if r.status = "DECLINED" then
        (none, some { code := ErrCardDeclined, message := "Payment was declined",
                      provider := cfg.name, retryable := false })
      else
        (none, some { code := ErrProviderInvalidResp,
                      message := "Invalid payment status: " ++ r.status,
                      provider := cfg.name, retryable := false })

/-- ProviderA, lines 468–524 of the adapter: the `httpClient.Do` call, the
status-code `switch` on exactly 429 / 500 / 400 (any other status falls
through), the body read, then `handleBody`. -/
def handleWire (cfg : PaymentProviderConfig) (wire : WireResult) :
    Option Payment × Option PaymentError :=
  match wire with
  | .netFail _ =>
      (none, some { code := ErrNetworkError, message := "Failed to send request",
                    provider := cfg.name, retryable := true })
  | .resp status readErr bodyA _ =>
      if status = 429 then
        (none, some { code := ErrRateLimitExceeded, message := "Rate limit exceeded",
                      provider := cfg.name, retryable := true, httpStatus := status })
      else if status = 500 then
        (none, some { code := ErrInternalError, message := "Provider internal error",
                      provider := cfg.name, retryable := true, httpStatus := status })
      else if status = 400 then
        (none, some { code := ErrInvalidAmount, message := "Invalid request parameters",
                      provider := cfg.name, retryable := false, httpStatus := status })
      else if readErr then
        (none, some { code := ErrInternalError, message := "Failed to read response body",
                      provider := cfg.name, retryable := true })
      else handleBody cfg bodyA

/-- `ProviderA.ProcessPayment` (adapter for Provider A), as a function of
the configuration, the call arguments and the wire outcome.  Mirrors the
source stage by stage: local validation (amount, max amount, closed
currency set), then the HTTP exchange and response handling
(`handleWire` / `handleBody`). -/
def ProcessPayment (cfg : PaymentProviderConfig) (amount : Rat) (currency : String)
    (wire : WireResult) : Option Payment × Option PaymentError :=
  if amount ≤ 0 then
    (none, some { code := ErrInvalidAmount, message := "Amount must be greater than 0",
                  provider := cfg.name, retryable := false })
  else if cfg.maxAmount < amount then
    (none, some { code := ErrInvalidAmount,
                  message := "Amount exceeds maximum limit of " ++ toString cfg.maxAmount,
                  provider := cfg.name, retryable := false })
  else if currency = "" ∨ (currency ≠ "USD" ∧ currency ≠ "EUR" ∧ currency ≠ "GBP") then
    (none, some { code := ErrInvalidCurrency, message := "Invalid or unsupported currency",
                  provider := cfg.name, retryable := false })
  else handleWire cfg wire

end ProviderA

namespace ProviderB

/-- ProviderB, lines 287–356 of the adapter: unmarshal the body, `switch`
on the `state` discriminator, `ParseFloat` the amount string, check the
currency code, then build the `Payment` with
`time.Unix(processedAt/1000, 0)` (Go integer division truncates toward
zero, as `Int.tdiv` does).  Note the `paymentId` field is used unchecked. -/
def handleBody (cfg : PaymentProviderConfig) (bodyB : BodyView BResponse) :
    Option Payment × Option PaymentError :=
  match bodyB with
  | .malformed =>
      (none, some { code := ErrProviderInvalidResp,
                    message := "Failed to parse provider response",
                    provider := cfg.name, retryable := false })
  | .parsed r =>
      if r.state = "SUCCESS" then
        match r.valueAmount with
        | none =>
            (none, some { code := ErrProviderInvalidResp,
                          message := "Invalid amount format in response",
                          provider := cfg.name, retryable := false })
        | some parsedAmount =>
            if r.currencyCode = "" then
              (none, some { code := ErrProviderInvalidResp,
                            message := "Missing currency in provider response",
                            provider := cfg.name, retryable := false })
            else
              (some { id := r.paymentId, amount := parsedAmount,
                      currency := r.currencyCode, status := StatusApproved,
                      provider := cfg.name,
                      timestamp := Int.tdiv r.processedAt 1000 + unixToInternal },
               none)
      else if r.state = "FAILED" then
        (none, some { code := ErrCardDeclined,
                      message := "Payment was declined by provider",
                      provider := cfg.name, retryable := false })
      else
        (none, some { code := ErrProviderInvalidResp,
                      message := "Invalid payment status from provider: " ++ r.state,
                      provider := cfg.name, retryable := false })

/-- ProviderB, lines 230–285 of the adapter: the `httpClient.Do` call
(with the "context deadline exceeded" error-text check), the status-code
triage `>= 500` / `= 429` / `>= 400`, the body read, then `handleBody`. -/
def handleWire (cfg : PaymentProviderConfig) (wire : WireResult) :
    Option Payment × Option PaymentError :=
  match wire with
  | .netFail deadlineExceeded =>
      (none, some { code := if deadlineExceeded then ErrProviderTimeout else ErrNetworkError,
                    message := "Failed to send request", provider := cfg.name,
                    retryable := true })
  | .resp status readErr _ bodyB =>
      if 500 ≤ status then
        (none, some { code := ErrProviderUnavailable,
                      message := "Provider error: " ++ toString status,
                      provider := cfg.name, retryable := true })
      else if status = 429 then
        (none, some { code := ErrRateLimitExceeded, message := "Rate limit exceeded",
                      provider := cfg.name, retryable := true })
      else if 400 ≤ status then
        (none, some { code := ErrProviderInvalidResp,
                      message := "Invalid request: " ++ toString status,
                      provider := cfg.name, retryable := false })
      else if readErr then
        (none, some { code := ErrInternalError, message := "Failed to read response body",
                      provider := cfg.name, retryable := true })
      else handleBody cfg bodyB

/-- `ProviderB.ProcessPayment` (adapter for Provider B), as a function of
the configuration, the call arguments and the wire outcome.  Mirrors the
source stage by stage: local validation (amount, max amount, non-empty
currency), then the HTTP exchange and response handling
(`handleWire` / `handleBody`). -/
def ProcessPayment (cfg : PaymentProviderConfig) (amount : Rat) (currency : String)
    (wire : WireResult) : Option Payment × Option PaymentError :=
  if amount ≤ 0 then
    (none, some { code := ErrInvalidAmount, message := "Amount must be greater than 0" })
  else if cfg.maxAmount < amount then
    (none, some { code := ErrInvalidAmount,
                  message := "Amount exceeds maximum limit of " ++ toString cfg.maxAmount })
  else if currency = "" then
    (none, some { code := ErrInvalidCurrency, message := "Currency is required" })
  else handleWire cfg wire

end ProviderB

namespace AssocList

/-- Lookup in a string-keyed Go map modelled as an association list. -/
def find (l : List (String × α)) (k : String) : Option α :=
  match l with
  | [] => none
  | (k', v) :: t => if k' = k then some v else find t k

/-- Insert-or-replace in a string-keyed Go map modelled as an association
list (`m[k] = v`). -/
def insert (l : List (String × α)) (k : String) (v : α) : List (String × α) :=
  match l with
  | [] => [(k, v)]
  | (k', v') :: t => if k' = k then (k, v) :: t else (k', v') :: insert t k v

/-- How many entries of the list carry key `k`. -/
def countKey : List (String × α) → String → Nat
  | [], _ => 0
  | (k', _) :: t, k => (if k' = k then 1 else 0) + countKey t k

end AssocList

/-- `providers.ProviderState` (the mutex is not data). Its default values
are the Go zero values, so `{}` is Go's `&ProviderState{}`. -/
structure ProviderState where
  isAvailable : Bool := false
  lastChecked : Int := 0
  consecutiveErrs : Nat := 0
  errorCount : Nat := 0
  successCount : Nat := 0
  lastError : Option PaymentError := none
deriving Repr, DecidableEq

/-- An adapter instance held in the factory's cache: the result of
`NewProviderA(cfg, client)` or `NewProviderB(cfg, client)`. -/
inductive ProviderInstance where
  | providerA (cfg : PaymentProviderConfig)
  | providerB (cfg : PaymentProviderConfig)
deriving Repr, DecidableEq

/-- `config.Config`, restricted to the `Providers` map the factory reads. -/
structure Config where
  providers : List (String × PaymentProviderConfig) := []
deriving Repr, DecidableEq

/-- `providers.Factory` (configuration, adapter cache, health-state map;
the HTTP client and mutex are not data). -/
structure Factory where
  config : Config
  providers : List (String × ProviderInstance) := []
  providerStates : List (String × ProviderState) := []
deriving Repr, DecidableEq

namespace Factory

/-- Dispatch `provider.ProcessPayment(ctx, amount, currency)` on a cached
adapter instance. -/
def runInstance (inst : ProviderInstance) (amount : Rat) (currency : String)
    (wire : WireResult) : Option Payment × Option PaymentError :=
  match inst with
  | .providerA cfg => ProviderA.ProcessPayment cfg amount currency wire
  | .providerB cfg => ProviderB.ProcessPayment cfg amount currency wire

/-- `Factory.getOrCreateProvider`: return the cached adapter, or resolve
the name's configuration, construct the adapter for a recognized name, and
initialize its health state (`IsAvailable: true, LastChecked: time.Now()`).
`now` stands for `time.Now()`. -/
def getOrCreateProvider (f : Factory) (providerName : String) (now : Int) :
    Except PaymentError ProviderInstance × Factory :=
  match AssocList.find f.providers providerName with
  | some provider => (.ok provider, f)
  | none =>
    match AssocList.find f.config.providers providerName with
    | none =>
        (.error { code := ErrProviderNotFound,
                  message := "Provider " ++ providerName ++ " not found" }, f)
    | some providerConfig =>
        let constructed : Option ProviderInstance :=
          if providerName = "ProviderA" then some (.providerA providerConfig)
          else if providerName = "ProviderB" then some (.providerB providerConfig)
          else none
        match constructed with
        | none =>
            (.error { code := ErrProviderNotFound,
                      message := "Provider " ++ providerName ++ " not supported" }, f)
        | some provider =>
            (.ok provider,
             { f with
                providerStates := AssocList.insert f.providerStates providerName
                  { isAvailable := true, lastChecked := now },
                providers := AssocList.insert f.providers providerName provider })

/-- `Factory.updateProviderState`: fetch (or zero-initialize) the entry for
the name, stamp `LastChecked`, then either reset on success or count the
failure and flip `IsAvailable` at the threshold of 3. -/
def updateProviderState (f : Factory) (providerName : String) (success : Bool)
    (err : Option PaymentError) (now : Int) : Factory :=
  let state := (AssocList.find f.providerStates providerName).getD {}
  let state := { state with lastChecked := now }
  let state :=
    if success then
      { state with isAvailable := true, consecutiveErrs := 0,
                   successCount := state.successCount + 1 }
    else
      let state := { state with consecutiveErrs := state.consecutiveErrs + 1,
                                errorCount := state.errorCount + 1, lastError := err }
      if 3 ≤ state.consecutiveErrs then { state with isAvailable := false } else state
  { f with providerStates := AssocList.insert f.providerStates providerName state }

/-- `Factory.ProcessPayment`: resolve or create the adapter, delegate, and
record the outcome into the provider's health state. -/
def ProcessPayment (f : Factory) (providerName : String) (amount : Rat)
    (currency : String) (wire : WireResult) (now : Int) :
    (Option Payment × Option PaymentError) × Factory :=
  match getOrCreateProvider f providerName now with
  | (.error e, f') => ((none, some e), f')
  | (.ok provider, f') =>
      let r := runInstance provider amount currency wire
      match r.2 with
      | some paymentErr =>
          ((none, some paymentErr), updateProviderState f' providerName false (some paymentErr) now)
      | none =>
          ((r.1, none), updateProviderState f' providerName true none now)

/-- `Factory.validateProviderConfig`: non-empty name, non-empty endpoint,
positive max amount; `none` means valid. -/
def validateProviderConfig (cfg : PaymentProviderConfig) : Option PaymentError :=
  if cfg.name = "" then
    some { code := ErrInvalidConfiguration, message := "Provider name is required" }
  else if cfg.endpoint = "" then
    some { code := ErrInvalidConfiguration,
           message := "Endpoint is required for provider " ++ cfg.name }
  else if cfg.maxAmount ≤ 0 then
    some { code := ErrInvalidConfiguration,
           message := "Invalid max amount for provider " ++ cfg.name }
  else none

/-- `Factory.CreateProvider`: cached-instance check, configuration lookup,
configuration validation, construction by name, then caching of the
instance and a fresh health state. -/
def CreateProvider (f : Factory) (name : String) (now : Int) :
    Except PaymentError ProviderInstance × Factory :=
  match AssocList.find f.providers name with
  | some provider => (.ok provider, f)
  | none =>
    match AssocList.find f.config.providers name with
    | none =>
        (.error { code := ErrProviderNotFound,
                  message := "No configuration found for provider: " ++ name }, f)
    | some cfg =>
        match validateProviderConfig cfg with
        | some err => (.error err, f)
        | none =>
            let constructed : Option ProviderInstance :=
              if name = "ProviderA" then some (.providerA cfg)
              else if name = "ProviderB" then some (.providerB cfg)
              else none
            match constructed with
            | none =>
                (.error { code := ErrProviderNotFound,
                          message := "Unknown provider type: " ++ name }, f)
            | some provider =>
                (.ok provider,
                 { f with
                    providerStates := AssocList.insert f.providerStates name
                      { isAvailable := true, lastChecked := now },
                    providers := AssocList.insert f.providers name provider })

end Factory

/-- `repository.PaymentRequest`. -/
structure PaymentRequest where
  amount : Rat
  currency : String
  provider : String
deriving Repr, DecidableEq

/-- `repository.PaymentResult`. -/
structure PaymentResult where
  request : PaymentRequest
  payment : Option Payment := none
  error : Option PaymentError := none
deriving Repr, DecidableEq

namespace Factory

/-- One linearization of the worker pool of `BatchProcessPayments`: the
requests are processed one at a time in index order, threading the shared
factory state; `wire i` is the HTTP outcome observed by the call for
request `i`.  Each processed index `idx` contributes, at position `idx` of
the output, `PaymentResult{Request: requests[idx], Payment, Error}` — the
slot content the source writes is a function of `idx` alone, so every
per-slot property proved below holds for every completion order of the
pool. -/
def batchAux (wire : Nat → WireResult) (now : Int) :
    Nat → Factory → List PaymentRequest → List PaymentResult × Factory
  | _, f, [] => ([], f)
  | i, f, req :: rest =>
      let r := ProcessPayment f req.provider req.amount req.currency (wire i) now
      let tail := batchAux wire now (i + 1) r.2 rest
      ({ request := req, payment := r.1.1, error := r.1.2 } :: tail.1, tail.2)

/-- `Factory.BatchProcessPayments` over a list of requests. -/
def BatchProcessPayments (f : Factory) (requests : List PaymentRequest)
    (wire : Nat → WireResult) (now : Int) : List PaymentResult × Factory :=
  batchAux wire now 0 f requests

end Factory

/-! ## Concrete fixtures (mirroring the repository's test configurations) -/

/-- The ProviderA test configuration of `factory_test.go` / `provider_a_test.go`. -/
def cfgA : PaymentProviderConfig :=
  { name := "ProviderA", endpoint := "http://provider-a.test", timeout := 5000000000,
    retryCount := 3, maxAmount := 10000, description := "Test Provider A" }

/-- The ProviderB test configuration of `factory_test.go`. -/
def cfgB : PaymentProviderConfig :=
  { name := "ProviderB", endpoint := "http://provider-b.test", timeout := 5000000000,
    retryCount := 3, maxAmount := 10000, description := "Test Provider B" }

/-- A fresh factory over the two configured providers
(`NewFactory(cfg, client)` of the tests). -/
def facAB : Factory :=
  { config := { providers := [("ProviderA", cfgA), ("ProviderB", cfgB)] } }

/-- A well-formed approved response body under ProviderA's schema
(the "successful payment" mock of `provider_a_test.go`). -/
def approvedBodyA : AResponse :=
  { transactionId := "TXN-TEST-100", status := "APPROVED", amount := 100,
    currency := "USD", timestamp := 63839000000 }

/-- A wire outcome delivering `approvedBodyA` with HTTP 200. -/
def wireOkA : WireResult := .resp 200 false (.parsed approvedBodyA) .malformed

/-- A transport-level failure (`httpClient.Do` returns an error). -/
def wireFail : WireResult := .netFail false

/-- The "failed payment" mock body of ProviderB's tests. -/
def failedBodyB : BResponse :=
  { paymentId := "PAY-TEST-999", state := "FAILED", valueAmount := some 999,
    currencyCode := "USD", processedAt := 1700000000000 }

/-- A wire outcome delivering `failedBodyB` with HTTP 200. -/
def wireB999 : WireResult := .resp 200 false .malformed (.parsed failedBodyB)

/-- An invalid ProviderA configuration (empty endpoint, non-positive max
amount), as in the "invalid provider config" tests. -/
def cfgBad : PaymentProviderConfig :=
  { name := "ProviderA", endpoint := "", maxAmount := 0 }

/-- A fresh factory whose only configuration entry is invalid. -/
def facBad : Factory := { config := { providers := [("ProviderA", cfgBad)] } }

/-- A factory that already caches a ProviderA adapter instance. -/
def facCached : Factory :=
  { config := { providers := [("ProviderA", cfgA)] },
    providers := [("ProviderA", .providerA cfgA)],
    providerStates := [("ProviderA", { isAvailable := true, lastChecked := 0 })] }

/-- A factory whose ProviderA already has two consecutive recorded errors. -/
def facErr2 : Factory :=
  { config := { providers := [("ProviderA", cfgA), ("ProviderB", cfgB)] },
    providers := [("ProviderA", .providerA cfgA)],
    providerStates := [("ProviderA",
      { isAvailable := true, lastChecked := 0, consecutiveErrs := 2, errorCount := 2,
        successCount := 0, lastError := none })] }

/-! ## Helper lemmas -/

theorem AssocList.find_insert_self (l : List (String × α)) (k : String) (v : α) :
    AssocList.find (AssocList.insert l k v) k = some v := by
  induction l with
  | nil => simp [AssocList.insert, AssocList.find]
  | cons h t ih =>
      by_cases hk : h.1 = k <;> simp [AssocList.insert, AssocList.find, hk, ih]

/-- Keys of `insert l k v` are among `k` and the keys of `l`. -/
theorem AssocList.keys_insert_sub {l : List (String × α)} {k : String} {v : α}
    {x : String} (h : x ∈ (AssocList.insert l k v).map Prod.fst) :
    x ∈ k :: l.map Prod.fst := by
  induction l with
  | nil => simpa [AssocList.insert] using h
  | cons p t ih =>
      by_cases hk : p.1 = k
      · simp only [AssocList.insert, hk, if_pos rfl] at h
        rcases (by simpa using h) with h | h
        · simp [h]
        · simp [h]
      · simp only [AssocList.insert, hk, if_false, List.map_cons, List.mem_cons] at h
        rcases h with h | h
        · simp [h]
        · rcases (by simpa using ih h) with h | h
          · simp [h]
          · simp [h]

theorem AssocList.keys_insert_nodup (l : List (String × α)) (k : String) (v : α)
    (h : (l.map Prod.fst).Nodup) :
    ((AssocList.insert l k v).map Prod.fst).Nodup := by
  induction l with
  | nil => simp [AssocList.insert]
  | cons p t ih =>
      simp only [List.map_cons, List.nodup_cons] at h
      by_cases hk : p.1 = k
      · subst hk
        simpa [AssocList.insert, List.nodup_cons] using h
      · have ht := ih h.2
        simp only [AssocList.insert, hk, if_false, List.map_cons, List.nodup_cons]
        refine ⟨fun hmem => ?_, ht⟩
        rcases List.mem_cons.mp (AssocList.keys_insert_sub (l := t) (k := k) (v := v) hmem) with
          h1 | h1
        · exact hk h1
        · exact h.1 h1

theorem AssocList.countKey_insert_self (l : List (String × α)) (k : String) (v : α)
    (h : AssocList.countKey l k ≤ 1) :
    AssocList.countKey (AssocList.insert l k v) k = 1 := by
  induction l with
  | nil => simp [AssocList.insert, AssocList.countKey]
  | cons p t ih =>
      by_cases hk : p.1 = k
      · subst hk
        simp only [AssocList.insert, if_pos rfl]
        simp [AssocList.countKey] at h ⊢
        omega
      · simp only [AssocList.insert, hk, if_false]
        simp [AssocList.countKey, hk] at h ⊢
        simpa using ih (by omega)

theorem AssocList.countKey_eq_count (l : List (String × α)) (k : String) :
    AssocList.countKey l k = (l.map Prod.fst).count k := by
  induction l with
  | nil => rfl
  | cons p t ih =>
      by_cases hk : p.1 = k <;>
        simp [AssocList.countKey, List.count_cons, ih, hk, Nat.add_comm]

theorem AssocList.countKey_le_one_of_nodup (l : List (String × α)) (k : String)
    (h : (l.map Prod.fst).Nodup) : AssocList.countKey l k ≤ 1 := by
  rw [AssocList.countKey_eq_count]
  exact List.nodup_iff_count_le_one.mp h k

/-- Every branch of ProviderA's body handling returns a `Payment` with no
error or an error with no `Payment`, mirroring the Go `return` pairs. -/
theorem ProviderA.handleBodyA_shape (cfg : PaymentProviderConfig) (b : BodyView AResponse) :
    ((ProviderA.handleBody cfg b).1.isSome ∧ (ProviderA.handleBody cfg b).2 = none)
    ∨ ((ProviderA.handleBody cfg b).1 = none ∧ ((ProviderA.handleBody cfg b).2).isSome) := by
  cases b with
  | malformed => exact Or.inr ⟨rfl, rfl⟩
  | parsed r =>
      simp only [ProviderA.handleBody]
      split_ifs
      all_goals first | exact Or.inl ⟨rfl, rfl⟩ | exact Or.inr ⟨rfl, rfl⟩

theorem ProviderA.handleWireA_shape (cfg : PaymentProviderConfig) (w : WireResult) :
    ((ProviderA.handleWire cfg w).1.isSome ∧ (ProviderA.handleWire cfg w).2 = none)
    ∨ ((ProviderA.handleWire cfg w).1 = none ∧ ((ProviderA.handleWire cfg w).2).isSome) := by
  cases w with
  | netFail d => exact Or.inr ⟨rfl, rfl⟩
  | resp s re bA bB =>
      simp only [ProviderA.handleWire]
      split_ifs
      all_goals (first | exact Or.inl ⟨rfl, rfl⟩ | exact Or.inr ⟨rfl, rfl⟩ | exact ProviderA.handleBodyA_shape cfg bA)

theorem ProviderA.processPaymentA_shape (cfg : PaymentProviderConfig) (a : Rat) (c : String)
    (w : WireResult) :
    ((ProviderA.ProcessPayment cfg a c w).1.isSome ∧ (ProviderA.ProcessPayment cfg a c w).2 = none)
    ∨ ((ProviderA.ProcessPayment cfg a c w).1 = none
        ∧ ((ProviderA.ProcessPayment cfg a c w).2).isSome) := by
  unfold ProviderA.ProcessPayment
  split_ifs
  all_goals first | exact Or.inr ⟨rfl, rfl⟩ | exact ProviderA.handleWireA_shape cfg w

theorem ProviderB.handleBodyB_shape (cfg : PaymentProviderConfig) (b : BodyView BResponse) :
    ((ProviderB.handleBody cfg b).1.isSome ∧ (ProviderB.handleBody cfg b).2 = none)
    ∨ ((ProviderB.handleBody cfg b).1 = none ∧ ((ProviderB.handleBody cfg b).2).isSome) := by
  cases b with
  | malformed => exact Or.inr ⟨rfl, rfl⟩
  | parsed r =>
      simp only [ProviderB.handleBody]
      cases hva : r.valueAmount with
      | none =>
          split_ifs
          all_goals first | exact Or.inl ⟨rfl, rfl⟩ | exact Or.inr ⟨rfl, rfl⟩
      | some q =>
          split_ifs
          all_goals first | exact Or.inl ⟨rfl, rfl⟩ | exact Or.inr ⟨rfl, rfl⟩

theorem ProviderB.handleWireB_shape (cfg : PaymentProviderConfig) (w : WireResult) :
    ((ProviderB.handleWire cfg w).1.isSome ∧ (ProviderB.handleWire cfg w).2 = none)
    ∨ ((ProviderB.handleWire cfg w).1 = none ∧ ((ProviderB.handleWire cfg w).2).isSome) := by
  cases w with
  | netFail d => exact Or.inr ⟨rfl, rfl⟩
  | resp s re bA bB =>
      simp only [ProviderB.handleWire]
      split_ifs
      all_goals (first | exact Or.inl ⟨rfl, rfl⟩ | exact Or.inr ⟨rfl, rfl⟩ | exact ProviderB.handleBodyB_shape cfg bB)

theorem ProviderB.processPaymentB_shape (cfg : PaymentProviderConfig) (a : Rat) (c : String)
    (w : WireResult) :
    ((ProviderB.ProcessPayment cfg a c w).1.isSome ∧ (ProviderB.ProcessPayment cfg a c w).2 = none)
    ∨ ((ProviderB.ProcessPayment cfg a c w).1 = none
        ∧ ((ProviderB.ProcessPayment cfg a c w).2).isSome) := by
  unfold ProviderB.ProcessPayment
  split_ifs
  all_goals first | exact Or.inr ⟨rfl, rfl⟩ | exact ProviderB.handleWireB_shape cfg w

theorem Factory.runInstance_shape (inst : ProviderInstance) (a : Rat) (c : String)
    (w : WireResult) :
    ((Factory.runInstance inst a c w).1.isSome ∧ (Factory.runInstance inst a c w).2 = none)
    ∨ ((Factory.runInstance inst a c w).1 = none ∧ ((Factory.runInstance inst a c w).2).isSome) := by
  cases inst with
  | providerA cfg => exact ProviderA.processPaymentA_shape cfg a c w
  | providerB cfg => exact ProviderB.processPaymentB_shape cfg a c w

/-- `Factory.ProcessPayment` returns exactly one of a `Payment` and a
`PaymentError`, mirroring the Go `return` pairs. -/
theorem Factory.processPayment_shape (f : Factory) (n : String) (a : Rat) (c : String)
    (w : WireResult) (t : Int) :
    ((Factory.ProcessPayment f n a c w t).1.1.isSome ∧ (Factory.ProcessPayment f n a c w t).1.2 = none)
    ∨ ((Factory.ProcessPayment f n a c w t).1.1 = none
        ∧ ((Factory.ProcessPayment f n a c w t).1.2).isSome) := by
  unfold Factory.ProcessPayment
  rcases hg : Factory.getOrCreateProvider f n t with ⟨res, f'⟩
  cases res with
  | error e => exact Or.inr ⟨rfl, rfl⟩
  | ok inst =>
      dsimp only
      rcases hr : Factory.runInstance inst a c w with ⟨pay, perr⟩
      cases perr with
      | some e => exact Or.inr ⟨rfl, rfl⟩
      | none =>
          rcases Factory.runInstance_shape inst a c w with h | h
          · rw [hr] at h
            exact Or.inl ⟨h.1, rfl⟩
          · rw [hr] at h
            simp at h

theorem Factory.batchAux_length (wire : Nat → WireResult) (now : Int) :
    ∀ (reqs : List PaymentRequest) (i : Nat) (f : Factory),
    ((Factory.batchAux wire now i f reqs).1).length = reqs.length := by
  intro reqs
  induction reqs with
  | nil => intro i f; rfl
  | cons r t ih =>
      intro i f
      simp only [Factory.batchAux, List.length_cons]
      rw [ih]

theorem Factory.batchAux_request (wire : Nat → WireResult) (now : Int) :
    ∀ (reqs : List PaymentRequest) (i : Nat) (f : Factory) (j : Nat),
    (((Factory.batchAux wire now i f reqs).1)[j]?).map PaymentResult.request = reqs[j]? := by
  intro reqs
  induction reqs with
  | nil => intro i f j; simp [Factory.batchAux]
  | cons r t ih =>
      intro i f j
      cases j with
      | zero => simp [Factory.batchAux]
      | succ j => simpa [Factory.batchAux] using ih (i + 1) _ j

theorem Factory.batchAux_exclusive (wire : Nat → WireResult) (now : Int) :
    ∀ (reqs : List PaymentRequest) (i : Nat) (f : Factory) (r : PaymentResult),
    r ∈ (Factory.batchAux wire now i f reqs).1 →
    (r.payment.isSome ∧ r.error = none) ∨ (r.payment = none ∧ r.error.isSome) := by
  intro reqs
  induction reqs with
  | nil => intro i f r h; simp [Factory.batchAux] at h
  | cons q t ih =>
      intro i f r h
      simp only [Factory.batchAux, List.mem_cons] at h
      rcases h with h | h
      · subst h
        exact Factory.processPayment_shape f q.provider q.amount q.currency (wire i) now
      · exact ih (i + 1) _ r h

/-- Passing ProviderA's local validation reduces `ProcessPayment` to its
wire handling. -/
theorem ProviderA.processPaymentA_wire (cfg : PaymentProviderConfig) (a : Rat) (c : String)
    (w : WireResult) (h1 : 0 < a) (h2 : a ≤ cfg.maxAmount)
    (hc : c = "USD" ∨ c = "EUR" ∨ c = "GBP") :
    ProviderA.ProcessPayment cfg a c w = ProviderA.handleWire cfg w := by
  have hcur : ¬(c = "" ∨ (c ≠ "USD" ∧ c ≠ "EUR" ∧ c ≠ "GBP")) := by
    rcases hc with rfl | rfl | rfl <;> decide
  unfold ProviderA.ProcessPayment
  rw [if_neg (not_le.mpr h1), if_neg (not_lt.mpr h2), if_neg hcur]

/-- Passing ProviderB's local validation reduces `ProcessPayment` to its
wire handling. -/
theorem ProviderB.processPaymentB_wire (cfg : PaymentProviderConfig) (a : Rat) (c : String)
    (w : WireResult) (h1 : 0 < a) (h2 : a ≤ cfg.maxAmount) (hc : c ≠ "") :
    ProviderB.ProcessPayment cfg a c w = ProviderB.handleWire cfg w := by
  unfold ProviderB.ProcessPayment
  rw [if_neg (not_le.mpr h1), if_neg (not_lt.mpr h2), if_neg hc]

/-- A status code outside ProviderA's `switch` (429/500/400) falls through
to body handling. -/
theorem ProviderA.handleWireA_body (cfg : PaymentProviderConfig) (status : Nat)
    (bA : BodyView AResponse) (bB : BodyView BResponse)
    (h1 : status ≠ 429) (h2 : status ≠ 500) (h3 : status ≠ 400) :
    ProviderA.handleWire cfg (.resp status false bA bB) = ProviderA.handleBody cfg bA := by
  simp only [ProviderA.handleWire]
  rw [if_neg h1, if_neg h2, if_neg h3, if_neg Bool.false_ne_true]

/-- A status code below ProviderB's triage thresholds falls through to
body handling. -/
theorem ProviderB.handleWireB_body (cfg : PaymentProviderConfig) (status : Nat)
    (bA : BodyView AResponse) (bB : BodyView BResponse)
    (h1 : status < 400) (h2 : status ≠ 429) :
    ProviderB.handleWire cfg (.resp status false bA bB) = ProviderB.handleBody cfg bB := by
  simp only [ProviderB.handleWire]
  rw [if_neg (by omega : ¬500 ≤ status), if_neg h2, if_neg (by omega : ¬400 ≤ status),
    if_neg Bool.false_ne_true]

/-- Any `Payment` ProviderA's body handling returns passed the
required-field and timestamp validation and carried the "APPROVED"
discriminator. -/
theorem ProviderA.handleBodyA_payment (cfg : PaymentProviderConfig) (b : BodyView AResponse)
    (p : Payment) (h : (ProviderA.handleBody cfg b).1 = some p) :
    p.id ≠ "" ∧ p.status = "APPROVED" ∧ p.currency ≠ "" ∧ p.timestamp ≠ 0 := by
  cases b with
  | malformed => exact Option.noConfusion h
  | parsed r =>
      simp only [ProviderA.handleBody] at h
      split_ifs at h with h1 h2 h3 h4
      all_goals try exact Option.noConfusion h
      injection h with h
      subst h
      push_neg at h1
      exact ⟨h1.1, h3, h1.2.2, h2⟩

theorem ProviderA.handleWireA_payment (cfg : PaymentProviderConfig) (w : WireResult)
    (p : Payment) (h : (ProviderA.handleWire cfg w).1 = some p) :
    p.id ≠ "" ∧ p.status = "APPROVED" ∧ p.currency ≠ "" ∧ p.timestamp ≠ 0 := by
  cases w with
  | netFail d => exact Option.noConfusion h
  | resp s re bA bB =>
      simp only [ProviderA.handleWire] at h
      split_ifs at h
      all_goals try exact Option.noConfusion h
      exact ProviderA.handleBodyA_payment cfg bA p h

theorem ProviderA.processPaymentA_payment (cfg : PaymentProviderConfig) (a : Rat)
    (c : String) (w : WireResult) (p : Payment)
    (h : (ProviderA.ProcessPayment cfg a c w).1 = some p) :
    p.id ≠ "" ∧ p.status = "APPROVED" ∧ p.currency ≠ "" ∧ p.timestamp ≠ 0 := by
  unfold ProviderA.ProcessPayment at h
  split_ifs at h
  all_goals try exact Option.noConfusion h
  exact ProviderA.handleWireA_payment cfg w p h

/-- Any `Payment` ProviderB's body handling returns has the approved
status and a non-empty currency (the `paymentId` field is not checked). -/
theorem ProviderB.handleBodyB_payment (cfg : PaymentProviderConfig) (b : BodyView BResponse)
    (p : Payment) (h : (ProviderB.handleBody cfg b).1 = some p) :
    p.status = StatusApproved ∧ p.currency ≠ "" := by
  cases b with
  | malformed => exact Option.noConfusion h
  | parsed r =>
      simp only [ProviderB.handleBody] at h
      cases hva : r.valueAmount <;> rw [hva] at h <;> split_ifs at h with h1 h2
      all_goals try exact Option.noConfusion h
      injection h with h
      subst h
      exact ⟨rfl, h2⟩

theorem ProviderB.handleWireB_payment (cfg : PaymentProviderConfig) (w : WireResult)
    (p : Payment) (h : (ProviderB.handleWire cfg w).1 = some p) :
    p.status = StatusApproved ∧ p.currency ≠ "" := by
  cases w with
  | netFail d => exact Option.noConfusion h
  | resp s re bA bB =>
      simp only [ProviderB.handleWire] at h
      split_ifs at h
      all_goals try exact Option.noConfusion h
      exact ProviderB.handleBodyB_payment cfg bB p h

theorem ProviderB.processPaymentB_payment (cfg : PaymentProviderConfig) (a : Rat)
    (c : String) (w : WireResult) (p : Payment)
    (h : (ProviderB.ProcessPayment cfg a c w).1 = some p) :
    p.status = StatusApproved ∧ p.currency ≠ "" := by
  unfold ProviderB.ProcessPayment at h
  split_ifs at h
  all_goals try exact Option.noConfusion h
  exact ProviderB.handleWireB_payment cfg w p h

/-- ProviderA returns a `Payment` only when the parsed body's `status`
discriminator is "APPROVED". -/
theorem ProviderA.processPayment_isSome_status (cfg : PaymentProviderConfig) (a : Rat)
    (c : String) (st : Nat) (re : Bool) (r : AResponse) (bB : BodyView BResponse)
    (h : ((ProviderA.ProcessPayment cfg a c (.resp st re (.parsed r) bB)).1).isSome) :
    r.status = "APPROVED" := by
  cases hp : (ProviderA.ProcessPayment cfg a c (.resp st re (.parsed r) bB)).1 with
  | none => rw [hp] at h; simp at h
  | some p =>
      have := (ProviderA.processPaymentA_payment cfg a c _ p hp).2.1
      unfold ProviderA.ProcessPayment at hp
      split_ifs at hp
      all_goals try exact Option.noConfusion hp
      simp only [ProviderA.handleWire] at hp
      split_ifs at hp
      all_goals try exact Option.noConfusion hp
      simp only [ProviderA.handleBody] at hp
      split_ifs at hp with h1 h2 h3 h4
      all_goals try exact Option.noConfusion hp
      exact h3

/-- ProviderB returns a `Payment` only when the parsed body's `state`
discriminator is "SUCCESS". -/
theorem ProviderB.processPayment_isSome_state (cfg : PaymentProviderConfig) (a : Rat)
    (c : String) (st : Nat) (re : Bool) (bA : BodyView AResponse) (r : BResponse)
    (h : ((ProviderB.ProcessPayment cfg a c (.resp st re bA (.parsed r))).1).isSome) :
    r.state = "SUCCESS" := by
  cases hp : (ProviderB.ProcessPayment cfg a c (.resp st re bA (.parsed r))).1 with
  | none => rw [hp] at h; simp at h
  | some p =>
      unfold ProviderB.ProcessPayment at hp
      split_ifs at hp
      all_goals try exact Option.noConfusion hp
      simp only [ProviderB.handleWire] at hp
      split_ifs at hp
      all_goals try exact Option.noConfusion hp
      simp only [ProviderB.handleBody] at hp
      cases hva : r.valueAmount <;> rw [hva] at hp <;> split_ifs at hp with h1 h2
      all_goals try exact Option.noConfusion hp
      exact h1

/-- No error built by ProviderA's body handling carries the
`INVALID_CONFIGURATION` code. -/
theorem ProviderA.handleBodyA_error_ne_config (cfg : PaymentProviderConfig)
    (b : BodyView AResponse) (e : PaymentError)
    (h : (ProviderA.handleBody cfg b).2 = some e) : e.code ≠ ErrInvalidConfiguration := by
  cases b with
  | malformed =>
      simp only [ProviderA.handleBody] at h
      injection h with h
      subst h
      dsimp only
      decide
  | parsed r =>
      simp only [ProviderA.handleBody] at h
      split_ifs at h
      all_goals
        first
          | (injection h with h; subst h; dsimp only; decide)
          | exact Option.noConfusion h

theorem ProviderA.handleWireA_error_ne_config (cfg : PaymentProviderConfig)
    (w : WireResult) (e : PaymentError)
    (h : (ProviderA.handleWire cfg w).2 = some e) : e.code ≠ ErrInvalidConfiguration := by
  cases w with
  | netFail d =>
      simp only [ProviderA.handleWire] at h
      injection h with h
      subst h
      dsimp only
      decide
  | resp s re bA bB =>
      simp only [ProviderA.handleWire] at h
      split_ifs at h
      all_goals
        first
          | (injection h with h; subst h; dsimp only; decide)
          | exact ProviderA.handleBodyA_error_ne_config cfg bA e h

theorem ProviderA.processPaymentA_error_ne_config (cfg : PaymentProviderConfig)
    (a : Rat) (c : String) (w : WireResult) (e : PaymentError)
    (h : (ProviderA.ProcessPayment cfg a c w).2 = some e) :
    e.code ≠ ErrInvalidConfiguration := by
  unfold ProviderA.ProcessPayment at h
  split_ifs at h
  all_goals
    first
      | (injection h with h; subst h; dsimp only; decide)
      | exact ProviderA.handleWireA_error_ne_config cfg w e h

theorem ProviderB.handleBodyB_error_ne_config (cfg : PaymentProviderConfig)
    (b : BodyView BResponse) (e : PaymentError)
    (h : (ProviderB.handleBody cfg b).2 = some e) : e.code ≠ ErrInvalidConfiguration := by
  cases b with
  | malformed =>
      simp only [ProviderB.handleBody] at h
      injection h with h
      subst h
      dsimp only
      decide
  | parsed r =>
      simp only [ProviderB.handleBody] at h
      cases hva : r.valueAmount <;> rw [hva] at h <;> split_ifs at h
      all_goals
        first
          | (injection h with h; subst h; dsimp only; decide)
          | exact Option.noConfusion h

theorem ProviderB.handleWireB_error_ne_config (cfg : PaymentProviderConfig)
    (w : WireResult) (e : PaymentError)
    (h : (ProviderB.handleWire cfg w).2 = some e) : e.code ≠ ErrInvalidConfiguration := by
  cases w with
  | netFail d =>
      simp only [ProviderB.handleWire] at h
      injection h with h
      subst h
      cases d <;> (dsimp only; decide)
  | resp s re bA bB =>
      simp only [ProviderB.handleWire] at h
      split_ifs at h
      all_goals
        first
          | (injection h with h; subst h; dsimp only; decide)
          | exact ProviderB.handleBodyB_error_ne_config cfg bB e h

theorem ProviderB.processPaymentB_error_ne_config (cfg : PaymentProviderConfig)
    (a : Rat) (c : String) (w : WireResult) (e : PaymentError)
    (h : (ProviderB.ProcessPayment cfg a c w).2 = some e) :
    e.code ≠ ErrInvalidConfiguration := by
  unfold ProviderB.ProcessPayment at h
  split_ifs at h
  all_goals
    first
      | (injection h with h; subst h; dsimp only; decide)
      | exact ProviderB.handleWireB_error_ne_config cfg w e h

theorem Factory.runInstance_error_ne_config (inst : ProviderInstance) (a : Rat)
    (c : String) (w : WireResult) (e : PaymentError)
    (h : (Factory.runInstance inst a c w).2 = some e) :
    e.code ≠ ErrInvalidConfiguration := by
  cases inst with
  | providerA cfg => exact ProviderA.processPaymentA_error_ne_config cfg a c w e h
  | providerB cfg => exact ProviderB.processPaymentB_error_ne_config cfg a c w e h

/-- `getOrCreateProvider` only ever fails with `PROVIDER_NOT_FOUND`. -/
theorem Factory.getOrCreateProvider_error_code (f : Factory) (n : String) (now : Int)
    (e : PaymentError) (h : (Factory.getOrCreateProvider f n now).1 = .error e) :
    e.code = ErrProviderNotFound := by
  unfold Factory.getOrCreateProvider at h
  cases hf : AssocList.find f.providers n with
  | some p =>
      rw [hf] at h
      exact Except.noConfusion h
  | none =>
      rw [hf] at h
      cases hc : AssocList.find f.config.providers n with
      | none =>
          rw [hc] at h
          injection h with h
          subst h
          rfl
      | some cfg =>
          rw [hc] at h
          dsimp only at h
          split_ifs at h
          all_goals
            first
              | exact Except.noConfusion h
              | (injection h with h; subst h; rfl)

/-- `updateProviderState` never touches the adapter cache. -/
theorem Factory.updateProviderState_providers (f : Factory) (n : String) (s : Bool)
    (e : Option PaymentError) (now : Int) :
    (Factory.updateProviderState f n s e now).providers = f.providers := rfl

/-- When `getOrCreateProvider` fails, it returns the factory unchanged. -/
theorem Factory.getOrCreateProvider_error_frame (f : Factory) (n : String) (now : Int)
    (e : PaymentError) (h : (Factory.getOrCreateProvider f n now).1 = .error e) :
    (Factory.getOrCreateProvider f n now).2 = f := by
  unfold Factory.getOrCreateProvider at h ⊢
  cases hf : AssocList.find f.providers n with
  | some p => rfl
  | none =>
      rw [hf] at h
      cases hc : AssocList.find f.config.providers n with
      | none => rfl
      | some cfg =>
          rw [hc] at h
          dsimp only at h ⊢
          split_ifs at h ⊢
          all_goals first | exact Except.noConfusion h | rfl

/-- The health-state map after `getOrCreateProvider`: unchanged, or with a
fresh entry inserted for the requested name. -/
theorem Factory.getOrCreateProvider_states (f : Factory) (n : String) (now : Int) :
    ((Factory.getOrCreateProvider f n now).2).providerStates = f.providerStates ∨
    ((Factory.getOrCreateProvider f n now).2).providerStates
      = AssocList.insert f.providerStates n { isAvailable := true, lastChecked := now } := by
  unfold Factory.getOrCreateProvider
  cases hf : AssocList.find f.providers n with
  | some p => exact Or.inl rfl
  | none =>
      cases hc : AssocList.find f.config.providers n with
      | none => exact Or.inl rfl
      | some cfg =>
          dsimp only
          split_ifs
          all_goals first | exact Or.inr rfl | exact Or.inl rfl

/-- When resolution succeeds, `Factory.ProcessPayment` always records the
outcome: the final health-state map is an insert at the requested name on
top of the post-resolution map. -/
theorem Factory.processPayment_states_ok (f : Factory) (n : String) (a : Rat) (c : String)
    (w : WireResult) (now : Int) (inst : ProviderInstance)
    (hok : (Factory.getOrCreateProvider f n now).1 = .ok inst) :
    ∃ s, ((Factory.ProcessPayment f n a c w now).2).providerStates
      = AssocList.insert (((Factory.getOrCreateProvider f n now).2).providerStates) n s := by
  unfold Factory.ProcessPayment
  rcases hg : Factory.getOrCreateProvider f n now with ⟨res, f'⟩
  rw [hg] at hok
  cases res with
  | error e => exact Except.noConfusion hok
  | ok i =>
      dsimp only
      cases hr : (Factory.runInstance i a c w).2 <;> exact ⟨_, rfl⟩

/-- When `CreateProvider` fails, it returns the factory unchanged. -/
theorem Factory.createProvider_error_frame (f : Factory) (n : String) (now : Int)
    (e : PaymentError) (h : (Factory.CreateProvider f n now).1 = .error e) :
    (Factory.CreateProvider f n now).2 = f := by
  unfold Factory.CreateProvider at h ⊢
  cases hf : AssocList.find f.providers n with
  | some p => rfl
  | none =>
      rw [hf] at h
      cases hc : AssocList.find f.config.providers n with
      | none => rfl
      | some cfg =>
          rw [hc] at h
          dsimp only at h ⊢
          cases hv : Factory.validateProviderConfig cfg with
          | some err => rfl
          | none =>
              rw [hv] at h
              dsimp only at h ⊢
              split_ifs at h ⊢
              all_goals first | exact Except.noConfusion h | rfl

/-- For a name with a configuration entry and a recognized constructor,
`getOrCreateProvider` on a cache miss constructs, records a fresh health
state, and caches — with no configuration validation. -/
theorem Factory.getOrCreateProvider_ok_of_config (f : Factory) (n : String)
    (cfg : PaymentProviderConfig) (now : Int)
    (h1 : AssocList.find f.providers n = none)
    (h2 : AssocList.find f.config.providers n = some cfg)
    (h3 : n = "ProviderA" ∨ n = "ProviderB") :
    ∃ inst, Factory.getOrCreateProvider f n now =
      (.ok inst,
       { f with
          providerStates := AssocList.insert f.providerStates n
            { isAvailable := true, lastChecked := now },
          providers := AssocList.insert f.providers n inst }) := by
  unfold Factory.getOrCreateProvider
  rw [h1, h2]
  rcases h3 with h3 | h3 <;> subst h3
  · exact ⟨.providerA cfg, by dsimp only; rw [if_pos rfl]⟩
  · exact ⟨.providerB cfg, by dsimp only; rw [if_neg (by decide), if_pos rfl]⟩

/-! ## Claims -/

/-- C1: `Factory.BatchProcessPayments` on `N` ordered requests returns
exactly `N` results; for every index `i`, `result[i].Request` equals
`requests[i]`, regardless of worker completion order (the slot written at
index `i` is a function of `i` alone); and each result carries either a
`Payment` or a `PaymentError`, never both non-nil, so one request's
failure never prevents the other slots from being filled. -/
theorem c1_batchProcess_order_and_exclusivity
    (f : Factory) (requests : List PaymentRequest) (wire : Nat → WireResult) (now : Int) :
    ((Factory.BatchProcessPayments f requests wire now).1).length = requests.length ∧
    (∀ j : Nat, (((Factory.BatchProcessPayments f requests wire now).1)[j]?).map
        PaymentResult.request = requests[j]?) ∧
    (∀ r ∈ (Factory.BatchProcessPayments f requests wire now).1,
      (r.payment.isSome ∧ r.error = none) ∨ (r.payment = none ∧ r.error.isSome)) :=
  ⟨Factory.batchAux_length wire now requests 0 f,
   fun j => Factory.batchAux_request wire now requests 0 f j,
   fun r hr => Factory.batchAux_exclusive wire now requests 0 f r hr⟩

/-- C1, witnessed on the spec's end-to-end scenario: a two-request batch
(approve 100 on ProviderA, fail 999 on ProviderB) returns two results in
request order, the first carrying a `Payment` and no error. -/
theorem c1_batchProcess_order_and_exclusivity_witness :
    ((Factory.BatchProcessPayments facAB
        [⟨100, "USD", "ProviderA"⟩, ⟨999, "USD", "ProviderB"⟩]
        (fun i => if i = 0 then wireOkA else wireB999) 0).1).length = 2 ∧
    (((Factory.BatchProcessPayments facAB
        [⟨100, "USD", "ProviderA"⟩, ⟨999, "USD", "ProviderB"⟩]
        (fun i => if i = 0 then wireOkA else wireB999) 0).1)[1]?).map
        PaymentResult.request = some ⟨999, "USD", "ProviderB"⟩ ∧
    ((({ request := ⟨100, "USD", "ProviderA"⟩,
         payment := some { id := "TXN-TEST-100", amount := 100, currency := "USD",
                           status := "APPROVED", provider := "ProviderA",
                           timestamp := 63839000000 },
         error := none } : PaymentResult).payment.isSome ∧
       ({ request := ⟨100, "USD", "ProviderA"⟩,
          payment := some { id := "TXN-TEST-100", amount := 100, currency := "USD",
                            status := "APPROVED", provider := "ProviderA",
                            timestamp := 63839000000 },
          error := none } : PaymentResult).error = none) ∨
     (({ request := ⟨100, "USD", "ProviderA"⟩,
         payment := some { id := "TXN-TEST-100", amount := 100, currency := "USD",
                           status := "APPROVED", provider := "ProviderA",
                           timestamp := 63839000000 },
         error := none } : PaymentResult).payment = none ∧
      ({ request := ⟨100, "USD", "ProviderA"⟩,
         payment := some { id := "TXN-TEST-100", amount := 100, currency := "USD",
                           status := "APPROVED", provider := "ProviderA",
                           timestamp := 63839000000 },
         error := none } : PaymentResult).error.isSome)) := by
  have h := c1_batchProcess_order_and_exclusivity facAB
    [⟨100, "USD", "ProviderA"⟩, ⟨999, "USD", "ProviderB"⟩]
    (fun i => if i = 0 then wireOkA else wireB999) 0
  exact ⟨h.1, by simpa using h.2.1 1, h.2.2 _ (by decide)⟩

/-- C4: the per-provider health state: a success update resets
`consecutiveErrs` to 0 and sets `isAvailable`; a failure update increments
`consecutiveErrs`, and whenever the incremented counter has reached the
threshold 3 the state shows `isAvailable = false`; in particular three
consecutive failure updates from a zero counter leave
`(isAvailable, consecutiveErrs) = (false, 3)`, and one subsequent success
update restores `(true, 0)`. -/
theorem c4_health_state_invariant (f : Factory) (name : String)
    (err failErr : Option PaymentError) (now : Int) :
    (((AssocList.find (Factory.updateProviderState f name true err now).providerStates
        name).getD {}).consecutiveErrs = 0 ∧
     ((AssocList.find (Factory.updateProviderState f name true err now).providerStates
        name).getD {}).isAvailable = true) ∧
    (((AssocList.find (Factory.updateProviderState f name false failErr now).providerStates
        name).getD {}).consecutiveErrs
      = ((AssocList.find f.providerStates name).getD {}).consecutiveErrs + 1) ∧
    (3 ≤ ((AssocList.find (Factory.updateProviderState f name false failErr now).providerStates
        name).getD {}).consecutiveErrs →
      ((AssocList.find (Factory.updateProviderState f name false failErr now).providerStates
        name).getD {}).isAvailable = false) ∧
    (((AssocList.find f.providerStates name).getD {}).consecutiveErrs = 0 →
      (((AssocList.find (Factory.updateProviderState (Factory.updateProviderState
          (Factory.updateProviderState f name false failErr now) name false failErr now)
          name false failErr now).providerStates name).getD {}).consecutiveErrs = 3 ∧
       ((AssocList.find (Factory.updateProviderState (Factory.updateProviderState
          (Factory.updateProviderState f name false failErr now) name false failErr now)
          name false failErr now).providerStates name).getD {}).isAvailable = false ∧
       ((AssocList.find (Factory.updateProviderState (Factory.updateProviderState
          (Factory.updateProviderState (Factory.updateProviderState f name false failErr now)
          name false failErr now) name false failErr now) name true none now).providerStates
          name).getD {}).consecutiveErrs = 0 ∧
       ((AssocList.find (Factory.updateProviderState (Factory.updateProviderState
          (Factory.updateProviderState (Factory.updateProviderState f name false failErr now)
          name false failErr now) name false failErr now) name true none now).providerStates
          name).getD {}).isAvailable = true)) := by
  refine ⟨?_, ?_, ?_, ?_⟩
  · simp [Factory.updateProviderState, AssocList.find_insert_self]
  · simp only [Factory.updateProviderState, Bool.false_eq_true, if_false,
      AssocList.find_insert_self, Option.getD_some]
    split_ifs <;> rfl
  · intro h3
    simp only [Factory.updateProviderState, Bool.false_eq_true, if_false,
      AssocList.find_insert_self, Option.getD_some] at h3 ⊢
    split_ifs at h3 ⊢ with hc
    · rfl
    · exact absurd h3 hc
  · intro h0
    simp [Factory.updateProviderState, AssocList.find_insert_self, h0]

/-- C4, witnessed: on a factory whose ProviderA state shows two consecutive
errors, one more failure update flips availability off, and on the fresh
`facAB` three failure updates then one success run the whole scenario. -/
theorem c4_health_state_invariant_witness :
    ((AssocList.find (Factory.updateProviderState facErr2 "ProviderA" false
        (some { code := ErrNetworkError }) 5).providerStates "ProviderA").getD {}).isAvailable
      = false ∧
    ((AssocList.find (Factory.updateProviderState (Factory.updateProviderState
        (Factory.updateProviderState facAB "ProviderA" false (some { code := ErrNetworkError }) 5)
        "ProviderA" false (some { code := ErrNetworkError }) 5) "ProviderA" false
        (some { code := ErrNetworkError }) 5).providerStates "ProviderA").getD {}).consecutiveErrs
      = 3 := by
  have h1 := c4_health_state_invariant facErr2 "ProviderA" none
    (some { code := ErrNetworkError }) 5
  have h2 := c4_health_state_invariant facAB "ProviderA" none
    (some { code := ErrNetworkError }) 5
  exact ⟨h1.2.2.1 (by decide), (h2.2.2.2 (by decide)).1⟩

/-- C6: for both adapters, an amount that is `<= 0` or exceeds the
configured maximum yields an `INVALID_AMOUNT` error that is not retryable,
and the outcome does not depend on the wire at all (no HTTP call is
issued). -/
theorem c6_invalid_amount_no_http (cfg : PaymentProviderConfig) (a : Rat) (c : String)
    (w w' : WireResult) (h : a ≤ 0 ∨ cfg.maxAmount < a) :
    (∃ e, ProviderA.ProcessPayment cfg a c w = (none, some e)
        ∧ e.code = ErrInvalidAmount ∧ e.retryable = false) ∧
    ProviderA.ProcessPayment cfg a c w = ProviderA.ProcessPayment cfg a c w' ∧
    (∃ e, ProviderB.ProcessPayment cfg a c w = (none, some e)
        ∧ e.code = ErrInvalidAmount ∧ e.retryable = false) ∧
    ProviderB.ProcessPayment cfg a c w = ProviderB.ProcessPayment cfg a c w' := by
  by_cases h1 : a ≤ 0
  · unfold ProviderA.ProcessPayment ProviderB.ProcessPayment
    simp only [if_pos h1]
    exact ⟨⟨_, rfl, rfl, rfl⟩, by trivial, ⟨_, rfl, rfl, rfl⟩, by trivial⟩
  · have h2 : cfg.maxAmount < a := h.resolve_left h1
    unfold ProviderA.ProcessPayment ProviderB.ProcessPayment
    simp only [if_neg h1, if_pos h2]
    exact ⟨⟨_, rfl, rfl, rfl⟩, by trivial, ⟨_, rfl, rfl, rfl⟩, by trivial⟩

/-- C6, witnessed at amount `-100`: both adapters return `INVALID_AMOUNT`,
not retryable, identically for two different wire outcomes. -/
theorem c6_invalid_amount_no_http_witness :
    (∃ e, ProviderA.ProcessPayment cfgA (-100) "USD" wireOkA = (none, some e)
        ∧ e.code = ErrInvalidAmount ∧ e.retryable = false) ∧
    ProviderA.ProcessPayment cfgA (-100) "USD" wireOkA
      = ProviderA.ProcessPayment cfgA (-100) "USD" wireFail ∧
    (∃ e, ProviderB.ProcessPayment cfgA (-100) "USD" wireOkA = (none, some e)
        ∧ e.code = ErrInvalidAmount ∧ e.retryable = false) ∧
    ProviderB.ProcessPayment cfgA (-100) "USD" wireOkA
      = ProviderB.ProcessPayment cfgA (-100) "USD" wireFail :=
  c6_invalid_amount_no_http cfgA (-100) "USD" wireOkA wireFail (Or.inl (by norm_num))

/-- C10: `Factory.ProcessPayment` never returns an `INVALID_CONFIGURATION`
error, and its creation path performs no configuration validation: for a
configured name with a recognized constructor — whatever the configuration
contents — the adapter is instantiated and cached. -/
theorem c10_processPayment_no_config_validation :
    (∀ (f : Factory) (n : String) (a : Rat) (c : String) (w : WireResult) (now : Int)
       (e : PaymentError),
       (Factory.ProcessPayment f n a c w now).1.2 = some e →
       e.code ≠ ErrInvalidConfiguration) ∧
    (∀ (f : Factory) (n : String) (cfg : PaymentProviderConfig) (a : Rat) (c : String)
       (w : WireResult) (now : Int),
       AssocList.find f.providers n = none →
       AssocList.find f.config.providers n = some cfg →
       (n = "ProviderA" ∨ n = "ProviderB") →
       ((AssocList.find ((Factory.ProcessPayment f n a c w now).2).providers n).isSome)) := by
  constructor
  · intro f n a c w now e h
    unfold Factory.ProcessPayment at h
    rcases hg : Factory.getOrCreateProvider f n now with ⟨res, f'⟩
    rw [hg] at h
    cases res with
    | error e' =>
        injection h with h
        subst h
        have hc := Factory.getOrCreateProvider_error_code f n now e'
          (by rw [hg])
        rw [hc]
        decide
    | ok inst =>
        dsimp only at h
        cases hr : (Factory.runInstance inst a c w).2 with
        | some pe =>
            rw [hr] at h
            injection h with h
            subst h
            exact Factory.runInstance_error_ne_config inst a c w pe hr
        | none =>
            rw [hr] at h
            exact Option.noConfusion h
  · intro f n cfg a c w now h1 h2 h3
    obtain ⟨inst, hg⟩ := Factory.getOrCreateProvider_ok_of_config f n cfg now h1 h2 h3
    unfold Factory.ProcessPayment
    rw [hg]
    dsimp only
    cases hr : (Factory.runInstance inst a c w).2 with
    | some pe => simp [Factory.updateProviderState, AssocList.find_insert_self]
    | none => simp [Factory.updateProviderState, AssocList.find_insert_self]

/-- C10, witnessed: an unknown name fails with `PROVIDER_NOT_FOUND` (never
`INVALID_CONFIGURATION`), and a name whose configuration is invalid (empty
endpoint, max amount 0) is still instantiated and cached by
`Factory.ProcessPayment`. -/
theorem c10_processPayment_no_config_validation_witness :
    ({ code := ErrProviderNotFound, message := "Provider Nope not found" }
        : PaymentError).code ≠ ErrInvalidConfiguration ∧
    ((AssocList.find ((Factory.ProcessPayment facBad "ProviderA" 100 "USD" wireFail
        0).2).providers "ProviderA").isSome) := by
  refine ⟨?_, ?_⟩
  · exact c10_processPayment_no_config_validation.1 facAB "Nope" 100 "USD" wireFail 0
      { code := ErrProviderNotFound, message := "Provider Nope not found" } (by decide)
  · exact c10_processPayment_no_config_validation.2 facBad "ProviderA" cfgBad 100 "USD"
      wireFail 0 (by decide) (by decide) (Or.inl rfl)

/-- `validateProviderConfig` rejects exactly the spec's invalid shapes with
`INVALID_CONFIGURATION`. -/
theorem Factory.validateProviderConfig_invalid (cfg : PaymentProviderConfig)
    (h : cfg.name = "" ∨ cfg.endpoint = "" ∨ cfg.maxAmount ≤ 0) :
    ∃ err, Factory.validateProviderConfig cfg = some err
      ∧ err.code = ErrInvalidConfiguration := by
  unfold Factory.validateProviderConfig
  split_ifs with h1 h2 h3
  · exact ⟨_, rfl, rfl⟩
  · exact ⟨_, rfl, rfl⟩
  · exact ⟨_, rfl, rfl⟩
  · rcases h with h | h | h
    · exact absurd h h1
    · exact absurd h h2
    · exact absurd h h3

/-- C5: `Factory.CreateProvider` is idempotent (a cached name returns the
cached instance and leaves the factory untouched, hence re-validates
nothing); an invalid configuration (empty name, empty endpoint, or
non-positive max amount) yields `INVALID_CONFIGURATION` and caches nothing,
so a later call against a valid configuration succeeds and caches; a name
with no configuration, or a valid configuration but no matching
constructor, yields `PROVIDER_NOT_FOUND` and caches nothing. -/
theorem c5_createProvider_idempotent_and_validated :
    (∀ (f : Factory) (name : String) (now : Int) (inst : ProviderInstance),
       AssocList.find f.providers name = some inst →
       Factory.CreateProvider f name now = (.ok inst, f)) ∧
    (∀ (f : Factory) (name : String) (now : Int) (cfg : PaymentProviderConfig),
       AssocList.find f.providers name = none →
       AssocList.find f.config.providers name = some cfg →
       (cfg.name = "" ∨ cfg.endpoint = "" ∨ cfg.maxAmount ≤ 0) →
       ∃ e, Factory.CreateProvider f name now = (.error e, f)
         ∧ e.code = ErrInvalidConfiguration) ∧
    (∀ (f : Factory) (name : String) (now : Int),
       AssocList.find f.providers name = none →
       AssocList.find f.config.providers name = none →
       ∃ e, Factory.CreateProvider f name now = (.error e, f)
         ∧ e.code = ErrProviderNotFound) ∧
    (∀ (f : Factory) (name : String) (now : Int) (cfg : PaymentProviderConfig),
       AssocList.find f.providers name = none →
       AssocList.find f.config.providers name = some cfg →
       Factory.validateProviderConfig cfg = none →
       name ≠ "ProviderA" → name ≠ "ProviderB" →
       ∃ e, Factory.CreateProvider f name now = (.error e, f)
         ∧ e.code = ErrProviderNotFound) ∧
    (∀ (f : Factory) (name : String) (now : Int) (cfg : PaymentProviderConfig),
       AssocList.find f.providers name = none →
       AssocList.find f.config.providers name = some cfg →
       Factory.validateProviderConfig cfg = none →
       (name = "ProviderA" ∨ name = "ProviderB") →
       ∃ inst, Factory.CreateProvider f name now =
         (.ok inst,
          { f with
             providerStates := AssocList.insert f.providerStates name
               { isAvailable := true, lastChecked := now },
             providers := AssocList.insert f.providers name inst })
         ∧ AssocList.find ((Factory.CreateProvider f name now).2).providers name
             = some inst) := by
  refine ⟨?_, ?_, ?_, ?_, ?_⟩
  · intro f name now inst h
    unfold Factory.CreateProvider
    rw [h]
  · intro f name now cfg h1 h2 hbad
    obtain ⟨err, hv, hc⟩ := Factory.validateProviderConfig_invalid cfg hbad
    unfold Factory.CreateProvider
    rw [h1, h2]
    dsimp only
    rw [hv]
    exact ⟨err, rfl, hc⟩
  · intro f name now h1 h2
    unfold Factory.CreateProvider
    rw [h1, h2]
    exact ⟨_, rfl, rfl⟩
  · intro f name now cfg h1 h2 hv hA hB
    unfold Factory.CreateProvider
    rw [h1, h2]
    dsimp only
    rw [hv]
    dsimp only
    rw [if_neg hA, if_neg hB]
    exact ⟨_, rfl, rfl⟩
  · intro f name now cfg h1 h2 hv h3
    unfold Factory.CreateProvider
    rw [h1, h2]
    dsimp only
    rw [hv]
    dsimp only
    rcases h3 with h3 | h3 <;> subst h3
    · rw [if_pos rfl]
      exact ⟨.providerA cfg, rfl,
        AssocList.find_insert_self f.providers "ProviderA" (.providerA cfg)⟩
    · rw [if_neg (by decide), if_pos rfl]
      exact ⟨.providerB cfg, rfl,
        AssocList.find_insert_self f.providers "ProviderB" (.providerB cfg)⟩

/-- C5, witnessed: the invalid configuration of `facBad` yields
`INVALID_CONFIGURATION` with nothing cached; on `facCached` a repeat call
returns the cached instance unchanged; on `facAB` (valid configuration)
creation succeeds and caches. -/
theorem c5_createProvider_idempotent_and_validated_witness :
    (∃ e, Factory.CreateProvider facBad "ProviderA" 0 = (.error e, facBad)
       ∧ e.code = ErrInvalidConfiguration) ∧
    Factory.CreateProvider facCached "ProviderA" 7 = (.ok (.providerA cfgA), facCached) ∧
    (∃ e, Factory.CreateProvider facAB "Nope" 0 = (.error e, facAB)
       ∧ e.code = ErrProviderNotFound) ∧
    (∃ inst, Factory.CreateProvider facAB "ProviderA" 3 =
       (.ok inst,
        { facAB with
           providerStates := AssocList.insert facAB.providerStates "ProviderA"
             { isAvailable := true, lastChecked := 3 },
           providers := AssocList.insert facAB.providers "ProviderA" inst })
       ∧ AssocList.find ((Factory.CreateProvider facAB "ProviderA" 3).2).providers "ProviderA"
           = some inst) := by
  refine ⟨?_, ?_, ?_, ?_⟩
  · exact c5_createProvider_idempotent_and_validated.2.1 facBad "ProviderA" 0 cfgBad
      (by decide) (by decide) (Or.inr (Or.inl rfl))
  · exact c5_createProvider_idempotent_and_validated.1 facCached "ProviderA" 7
      (.providerA cfgA) (by decide)
  · exact c5_createProvider_idempotent_and_validated.2.2.1 facAB "Nope" 0
      (by decide) (by decide)
  · exact c5_createProvider_idempotent_and_validated.2.2.2.2 facAB "ProviderA" 3 cfgA
      (by decide) (by decide) (by decide) (Or.inl rfl)

/-- C9, counterexample: the claim says every name ever passed to the
registry — including names whose resolution failed — gets a health-state
entry.  But after `Factory.ProcessPayment` on the unconfigured name
"Nope", the health-state map has no entry for "Nope". -/
theorem c9_counterexample_failed_name_has_no_state :
    AssocList.find ((Factory.ProcessPayment facAB "Nope" 100 "USD" wireFail
      0).2).providerStates "Nope" = none := by decide

/-- C9, amended: the health-state map holds exactly one `ProviderState`
entry per distinct name successfully resolved to an adapter (and keeps
holding it — outcome recording re-inserts at the same key); a name whose
resolution or creation fails adds no entry, the maps being returned
unchanged. -/
theorem c9_amended_one_state_entry_per_resolved_name :
    (∀ (f : Factory) (n : String) (a : Rat) (c : String) (w : WireResult) (now : Int)
       (e : PaymentError),
       (Factory.getOrCreateProvider f n now).1 = .error e →
       ((Factory.ProcessPayment f n a c w now).2).providerStates = f.providerStates) ∧
    (∀ (f : Factory) (n : String) (now : Int) (e : PaymentError),
       (Factory.CreateProvider f n now).1 = .error e →
       (Factory.CreateProvider f n now).2 = f) ∧
    (∀ (f : Factory) (n : String) (a : Rat) (c : String) (w : WireResult) (now : Int)
       (inst : ProviderInstance),
       (f.providerStates.map Prod.fst).Nodup →
       (Factory.getOrCreateProvider f n now).1 = .ok inst →
       AssocList.countKey ((Factory.ProcessPayment f n a c w now).2).providerStates n = 1 ∧
       ((((Factory.ProcessPayment f n a c w now).2).providerStates.map Prod.fst).Nodup)) := by
  refine ⟨?_, ?_, ?_⟩
  · intro f n a c w now e he
    have hfr := Factory.getOrCreateProvider_error_frame f n now e he
    unfold Factory.ProcessPayment
    rcases hg : Factory.getOrCreateProvider f n now with ⟨res, f'⟩
    rw [hg] at he hfr
    cases res with
    | ok i => exact Except.noConfusion he
    | error e' =>
        dsimp only at hfr ⊢
        rw [hfr]
  · intro f n now e he
    exact Factory.createProvider_error_frame f n now e he
  · intro f n a c w now inst hnd hok
    have hle := AssocList.countKey_le_one_of_nodup f.providerStates n hnd
    obtain ⟨s, hp⟩ := Factory.processPayment_states_ok f n a c w now inst hok
    rw [hp]
    rcases Factory.getOrCreateProvider_states f n now with hs | hs <;> rw [hs]
    · exact ⟨AssocList.countKey_insert_self f.providerStates n s hle,
        AssocList.keys_insert_nodup f.providerStates n s hnd⟩
    · have h1 := AssocList.countKey_insert_self f.providerStates n
        { isAvailable := true, lastChecked := now } hle
      have hnd1 := AssocList.keys_insert_nodup f.providerStates n
        ({ isAvailable := true, lastChecked := now } : ProviderState) hnd
      exact ⟨AssocList.countKey_insert_self _ n s (le_of_eq h1),
        AssocList.keys_insert_nodup _ n s hnd1⟩

/-- C9 amended, witnessed: processing through the configured name
"ProviderA" on the fresh `facAB` leaves exactly one state entry for it. -/
theorem c9_amended_one_state_entry_per_resolved_name_witness :
    ((Factory.CreateProvider facAB "Nope" 0).2 = facAB) ∧
    AssocList.countKey ((Factory.ProcessPayment facAB "ProviderA" 100 "USD" wireFail
      0).2).providerStates "ProviderA" = 1 := by
  refine ⟨?_, ?_⟩
  · exact c9_amended_one_state_entry_per_resolved_name.2.1 facAB "Nope" 0
      { code := ErrProviderNotFound, message := "No configuration found for provider: Nope" }
      rfl
  · exact (c9_amended_one_state_entry_per_resolved_name.2.2 facAB "ProviderA" 100 "USD"
      wireFail 0 (.providerA cfgA) (by decide) rfl).1

/-- C3, counterexample: the claim says every adapter maps every status
`>= 500` to `PROVIDER_UNAVAILABLE` without parsing the body.  ProviderA
maps 500 to `INTERNAL_ERROR` (as its own test "provider error" expects),
and a 503 response is not triaged at all: its body is parsed and an
approved body yields a `Payment`. -/
theorem c3_counterexample_providerA_5xx :
    ((ProviderA.ProcessPayment cfgA 100 "USD"
        (.resp 500 false (.parsed approvedBodyA) .malformed)).2.map PaymentError.code)
      = some ErrInternalError ∧
    ((ProviderA.ProcessPayment cfgA 100 "USD"
        (.resp 500 false (.parsed approvedBodyA) .malformed)).2.map PaymentError.code)
      ≠ some ErrProviderUnavailable ∧
    ((ProviderA.ProcessPayment cfgA 100 "USD"
        (.resp 503 false (.parsed approvedBodyA) .malformed)).1).isSome := by decide

/-- C3, amended: ProviderB maps every status `>= 500` to
`PROVIDER_UNAVAILABLE`, retryable, for every body (the body is never
parsed).  ProviderA triages only 429/500/400: it maps 500 to
`INTERNAL_ERROR`, retryable, for every body, while any other `>= 500`
status falls through to body parsing and can even yield a `Payment`. -/
theorem c3_amended_5xx_triage (cfg : PaymentProviderConfig) (a : Rat) (c : String)
    (status : Nat) (readErr : Bool) (bA : BodyView AResponse) (bB : BodyView BResponse)
    (h1 : 0 < a) (h2 : a ≤ cfg.maxAmount) :
    (c ≠ "" → 500 ≤ status →
      ∃ e, ProviderB.ProcessPayment cfg a c (.resp status readErr bA bB) = (none, some e)
        ∧ e.code = ErrProviderUnavailable ∧ e.retryable = true) ∧
    ((c = "USD" ∨ c = "EUR" ∨ c = "GBP") →
      ∃ e, ProviderA.ProcessPayment cfg a c (.resp 500 readErr bA bB) = (none, some e)
        ∧ e.code = ErrInternalError ∧ e.retryable = true) ∧
    ((ProviderA.ProcessPayment cfgA 100 "USD"
        (.resp 503 false (.parsed approvedBodyA) .malformed)).1).isSome := by
  refine ⟨?_, ?_, by decide⟩
  · intro hc h5
    rw [ProviderB.processPaymentB_wire cfg a c _ h1 h2 hc]
    simp only [ProviderB.handleWire]
    rw [if_pos h5]
    exact ⟨_, rfl, rfl, rfl⟩
  · intro hc
    rw [ProviderA.processPaymentA_wire cfg a c _ h1 h2 hc]
    simp only [ProviderA.handleWire]
    split_ifs with ha hb
    · exact absurd ha (by decide)
    · exact ⟨_, rfl, rfl, rfl⟩
    all_goals exact absurd rfl hb

/-- C3 amended, witnessed: ProviderB at 503 returns `PROVIDER_UNAVAILABLE`
retryable; ProviderA at 500 returns `INTERNAL_ERROR` retryable. -/
theorem c3_amended_5xx_triage_witness :
    (∃ e, ProviderB.ProcessPayment cfgB 100 "USD"
        (.resp 503 false .malformed (.parsed failedBodyB)) = (none, some e)
      ∧ e.code = ErrProviderUnavailable ∧ e.retryable = true) ∧
    (∃ e, ProviderA.ProcessPayment cfgA 100 "USD"
        (.resp 500 false (.parsed approvedBodyA) .malformed) = (none, some e)
      ∧ e.code = ErrInternalError ∧ e.retryable = true) := by
  have hB := c3_amended_5xx_triage cfgB 100 "USD" 503 false .malformed (.parsed failedBodyB)
    (by norm_num) (by norm_num [cfgB]) |>.1 (by decide) (by norm_num)
  have hA := c3_amended_5xx_triage cfgA 100 "USD" 500 false (.parsed approvedBodyA) .malformed
    (by norm_num) (by norm_num [cfgA]) |>.2.1 (Or.inl rfl)
  exact ⟨hB, hA⟩

/-- C7, counterexample: the claim says no 4xx response ever proceeds to
body parsing or yields a `Payment`.  ProviderA does not triage 404: the
body is parsed and an approved body yields a `Payment`. -/
theorem c7_counterexample_providerA_404 :
    ((ProviderA.ProcessPayment cfgA 100 "USD"
        (.resp 404 false (.parsed approvedBodyA) .malformed)).1).isSome := by decide

/-- C7, amended: ProviderB maps every 4xx other than 429 to
`PROVIDER_INVALID_RESPONSE`, not retryable, for every body.  ProviderA
triages only 400 among the non-429 4xx codes (to `INVALID_AMOUNT`, not
retryable, for every body); any other 4xx falls through to body parsing
and can yield a `Payment`. -/
theorem c7_amended_4xx_triage (cfg : PaymentProviderConfig) (a : Rat) (c : String)
    (status : Nat) (readErr : Bool) (bA : BodyView AResponse) (bB : BodyView BResponse)
    (h1 : 0 < a) (h2 : a ≤ cfg.maxAmount) :
    (c ≠ "" → 400 ≤ status → status < 500 → status ≠ 429 →
      ∃ e, ProviderB.ProcessPayment cfg a c (.resp status readErr bA bB) = (none, some e)
        ∧ e.code = ErrProviderInvalidResp ∧ e.retryable = false) ∧
    ((c = "USD" ∨ c = "EUR" ∨ c = "GBP") →
      ∃ e, ProviderA.ProcessPayment cfg a c (.resp 400 readErr bA bB) = (none, some e)
        ∧ e.code = ErrInvalidAmount ∧ e.retryable = false) ∧
    ((ProviderA.ProcessPayment cfgA 100 "USD"
        (.resp 404 false (.parsed approvedBodyA) .malformed)).1).isSome := by
  refine ⟨?_, ?_, by decide⟩
  · intro hc h4 h5 h429
    rw [ProviderB.processPaymentB_wire cfg a c _ h1 h2 hc]
    simp only [ProviderB.handleWire]
    rw [if_neg (by omega : ¬500 ≤ status), if_neg h429, if_pos h4]
    exact ⟨_, rfl, rfl, rfl⟩
  · intro hc
    rw [ProviderA.processPaymentA_wire cfg a c _ h1 h2 hc]
    simp only [ProviderA.handleWire]
    split_ifs with ha hb hc4
    · exact absurd ha (by decide)
    · exact absurd hb (by decide)
    · exact ⟨_, rfl, rfl, rfl⟩
    all_goals exact absurd rfl hc4

/-- C7 amended, witnessed: ProviderB at 404 returns
`PROVIDER_INVALID_RESPONSE`, not retryable; ProviderA at 400 returns
`INVALID_AMOUNT`, not retryable. -/
theorem c7_amended_4xx_triage_witness :
    (∃ e, ProviderB.ProcessPayment cfgB 100 "USD"
        (.resp 404 false .malformed (.parsed failedBodyB)) = (none, some e)
      ∧ e.code = ErrProviderInvalidResp ∧ e.retryable = false) ∧
    (∃ e, ProviderA.ProcessPayment cfgA 100 "USD"
        (.resp 400 false (.parsed approvedBodyA) .malformed) = (none, some e)
      ∧ e.code = ErrInvalidAmount ∧ e.retryable = false) := by
  have hB := c7_amended_4xx_triage cfgB 100 "USD" 404 false .malformed (.parsed failedBodyB)
    (by norm_num) (by norm_num [cfgB]) |>.1 (by decide) (by norm_num) (by norm_num)
    (by norm_num)
  have hA := c7_amended_4xx_triage cfgA 100 "USD" 400 false (.parsed approvedBodyA) .malformed
    (by norm_num) (by norm_num [cfgA]) |>.2.1 (Or.inl rfl)
  exact ⟨hB, hA⟩

/-- C2, counterexample: the claim says every `Payment` either adapter
returns has a non-empty identifier.  ProviderB never validates
`paymentId`: a 200 "SUCCESS" body with an empty `paymentId` yields a
`Payment` whose identifier is empty (instead of the claimed
`PROVIDER_INVALID_RESPONSE`). -/
theorem c2_counterexample_providerB_empty_id :
    ((ProviderB.ProcessPayment cfgB 100 "USD"
        (.resp 200 false .malformed
          (.parsed { paymentId := "", state := "SUCCESS", valueAmount := some 100,
                     currencyCode := "USD", processedAt := 1700000000000 }))).1.map
      Payment.id) = some "" := by decide

/-- C2, amended: ProviderA's payments always carry a non-empty identifier,
non-empty status, non-empty currency and non-zero timestamp, and any
missing required field or zero timestamp yields `PROVIDER_INVALID_RESPONSE`.
ProviderB validates only the amount parse and the currency: its payments
carry the approved status and a non-empty currency, and an unparseable
amount or empty currency on a 2xx "SUCCESS" body yields
`PROVIDER_INVALID_RESPONSE`, not retryable — but the `paymentId` field
(and `processedAt`) are not validated, so the identifier may be empty. -/
theorem c2_amended_response_field_validation (cfg : PaymentProviderConfig) (a : Rat)
    (c : String) (w : WireResult) (status : Nat) (bA : BodyView AResponse) (r : BResponse)
    (rA : AResponse) :
    (∀ p, (ProviderA.ProcessPayment cfg a c w).1 = some p →
       p.id ≠ "" ∧ p.status ≠ "" ∧ p.currency ≠ "" ∧ p.timestamp ≠ 0) ∧
    (∀ p, (ProviderB.ProcessPayment cfg a c w).1 = some p →
       p.status = StatusApproved ∧ p.status ≠ "" ∧ p.currency ≠ "") ∧
    (0 < a → a ≤ cfg.maxAmount → c ≠ "" → status < 400 → status ≠ 429 →
      r.state = "SUCCESS" → (r.valueAmount = none ∨ r.currencyCode = "") →
      ∃ e, ProviderB.ProcessPayment cfg a c (.resp status false bA (.parsed r))
          = (none, some e)
        ∧ e.code = ErrProviderInvalidResp ∧ e.retryable = false) ∧
    (0 < a → a ≤ cfg.maxAmount → (c = "USD" ∨ c = "EUR" ∨ c = "GBP") →
      status ≠ 429 → status ≠ 500 → status ≠ 400 →
      (rA.transactionId = "" ∨ rA.status = "" ∨ rA.currency = "" ∨ rA.timestamp = 0) →
      ∃ e, ProviderA.ProcessPayment cfg a c (.resp status false (.parsed rA) .malformed)
          = (none, some e)
        ∧ e.code = ErrProviderInvalidResp ∧ e.retryable = false) := by
  refine ⟨?_, ?_, ?_, ?_⟩
  · intro p hp
    obtain ⟨hid, hst, hcur, hts⟩ := ProviderA.processPaymentA_payment cfg a c w p hp
    refine ⟨hid, ?_, hcur, hts⟩
    rw [hst]
    decide
  · intro p hp
    obtain ⟨hst, hcur⟩ := ProviderB.processPaymentB_payment cfg a c w p hp
    refine ⟨hst, ?_, hcur⟩
    rw [hst]
    decide
  · intro h1 h2 hc h4 h429 hstate hbad
    rw [ProviderB.processPaymentB_wire cfg a c _ h1 h2 hc,
      ProviderB.handleWireB_body cfg status bA (.parsed r) h4 h429]
    simp only [ProviderB.handleBody]
    rw [if_pos hstate]
    rcases hbad with hbad | hbad
    · rw [hbad]
      exact ⟨_, rfl, rfl, rfl⟩
    · cases hva : r.valueAmount with
      | none => exact ⟨_, rfl, rfl, rfl⟩
      | some q =>
          dsimp only
          rw [if_pos hbad]
          exact ⟨_, rfl, rfl, rfl⟩
  · intro h1 h2 hc h429 h500 h400 hbad
    rw [ProviderA.processPaymentA_wire cfg a c _ h1 h2 hc,
      ProviderA.handleWireA_body cfg status (.parsed rA) .malformed h429 h500 h400]
    simp only [ProviderA.handleBody]
    rcases hbad with hbad | hbad | hbad | hbad
    · rw [if_pos (Or.inl hbad)]
      exact ⟨_, rfl, rfl, rfl⟩
    · rw [if_pos (Or.inr (Or.inl hbad))]
      exact ⟨_, rfl, rfl, rfl⟩
    · rw [if_pos (Or.inr (Or.inr hbad))]
      exact ⟨_, rfl, rfl, rfl⟩
    · by_cases hfields : rA.transactionId = "" ∨ rA.status = "" ∨ rA.currency = ""
      · rw [if_pos hfields]
        exact ⟨_, rfl, rfl, rfl⟩
      · rw [if_neg hfields, if_pos hbad]
        exact ⟨_, rfl, rfl, rfl⟩

/-- C2 amended, witnessed: ProviderA's approved mock yields a payment with
non-empty fields; ProviderB with an unparseable amount string yields
`PROVIDER_INVALID_RESPONSE`. -/
theorem c2_amended_response_field_validation_witness :
    ("TXN-TEST-100" ≠ "" ∧ "APPROVED" ≠ "" ∧ "USD" ≠ "" ∧ (63839000000 : Int) ≠ 0) ∧
    (∃ e, ProviderB.ProcessPayment cfgB 100 "USD"
        (.resp 200 false .malformed
          (.parsed { paymentId := "PAY-TEST-103", state := "SUCCESS", valueAmount := none,
                     currencyCode := "USD", processedAt := 1700000000000 }))
        = (none, some e)
      ∧ e.code = ErrProviderInvalidResp ∧ e.retryable = false) := by
  refine ⟨?_, ?_⟩
  · exact (c2_amended_response_field_validation cfgA 100 "USD" wireOkA 200 .malformed
      failedBodyB approvedBodyA).1
      { id := "TXN-TEST-100", amount := 100, currency := "USD", status := "APPROVED",
        provider := "ProviderA", timestamp := 63839000000 } (by decide)
  · exact (c2_amended_response_field_validation cfgB 100 "USD" wireFail 200 .malformed
      { paymentId := "PAY-TEST-103", state := "SUCCESS", valueAmount := none,
        currencyCode := "USD", processedAt := 1700000000000 } approvedBodyA).2.2.1
      (by norm_num) (by norm_num [cfgB]) (by decide) (by norm_num) (by norm_num) rfl
      (Or.inl rfl)

/-- C8, counterexample: the claim says a "DECLINED" discriminator on a
parseable 2xx body yields `CARD_DECLINED`.  ProviderA runs its
required-field validation before consulting the discriminator: a DECLINED
body with an empty `transaction_id` yields `PROVIDER_INVALID_RESPONSE`,
not `CARD_DECLINED`. -/
theorem c8_counterexample_providerA_declined_missing_field :
    ((ProviderA.ProcessPayment cfgA 100 "USD"
        (.resp 200 false
          (.parsed { transactionId := "", status := "DECLINED", amount := 999,
                     currency := "USD", timestamp := 63839000000 }) .malformed)).2.map
      PaymentError.code) = some ErrProviderInvalidResp ∧
    ((ProviderA.ProcessPayment cfgA 100 "USD"
        (.resp 200 false
          (.parsed { transactionId := "", status := "DECLINED", amount := 999,
                     currency := "USD", timestamp := 63839000000 }) .malformed)).2.map
      PaymentError.code) ≠ some ErrCardDeclined := by decide

/-- C8, amended: on a parseable 2xx body, ProviderB maps "FAILED" to
`CARD_DECLINED` (not retryable, never a `Payment`), any state other than
"SUCCESS"/"FAILED" to `PROVIDER_INVALID_RESPONSE`, and returns a `Payment`
only for "SUCCESS".  ProviderA consults its discriminator only after the
required-field/timestamp validation passes: given non-empty
`transaction_id`/`currency` and non-zero timestamp, "DECLINED" yields
`CARD_DECLINED` (not retryable), an unrecognized non-empty status yields
`PROVIDER_INVALID_RESPONSE`, and only "APPROVED" yields a `Payment`; a
DECLINED body that fails field validation yields
`PROVIDER_INVALID_RESPONSE` instead (see the counterexample). -/
theorem c8_amended_discriminator_mapping (cfg : PaymentProviderConfig) (a : Rat)
    (c : String) (status : Nat) (re : Bool) (bA : BodyView AResponse)
    (bB : BodyView BResponse) (rA : AResponse) (rB : BResponse)
    (h1 : 0 < a) (h2 : a ≤ cfg.maxAmount) (h2xx : 200 ≤ status) (h2xx' : status < 300) :
    (c ≠ "" → rB.state = "FAILED" →
      ∃ e, ProviderB.ProcessPayment cfg a c (.resp status false bA (.parsed rB))
          = (none, some e) ∧ e.code = ErrCardDeclined ∧ e.retryable = false) ∧
    (c ≠ "" → rB.state ≠ "SUCCESS" → rB.state ≠ "FAILED" →
      ∃ e, ProviderB.ProcessPayment cfg a c (.resp status false bA (.parsed rB))
          = (none, some e) ∧ e.code = ErrProviderInvalidResp ∧ e.retryable = false) ∧
    (((ProviderB.ProcessPayment cfg a c (.resp status re bA (.parsed rB))).1).isSome →
      rB.state = "SUCCESS") ∧
    ((c = "USD" ∨ c = "EUR" ∨ c = "GBP") → rA.transactionId ≠ "" → rA.currency ≠ "" →
      rA.timestamp ≠ 0 → rA.status = "DECLINED" →
      ∃ e, ProviderA.ProcessPayment cfg a c (.resp status false (.parsed rA) bB)
          = (none, some e) ∧ e.code = ErrCardDeclined ∧ e.retryable = false) ∧
    ((c = "USD" ∨ c = "EUR" ∨ c = "GBP") → rA.transactionId ≠ "" → rA.currency ≠ "" →
      rA.timestamp ≠ 0 → rA.status ≠ "" → rA.status ≠ "APPROVED" → rA.status ≠ "DECLINED" →
      ∃ e, ProviderA.ProcessPayment cfg a c (.resp status false (.parsed rA) bB)
          = (none, some e) ∧ e.code = ErrProviderInvalidResp ∧ e.retryable = false) ∧
    (((ProviderA.ProcessPayment cfg a c (.resp status re (.parsed rA) bB)).1).isSome →
      rA.status = "APPROVED") := by
  refine ⟨?_, ?_, ?_, ?_, ?_, ?_⟩
  · intro hc hfail
    rw [ProviderB.processPaymentB_wire cfg a c _ h1 h2 hc,
      ProviderB.handleWireB_body cfg status bA (.parsed rB) (by omega) (by omega)]
    simp only [ProviderB.handleBody]
    rw [if_neg (by rw [hfail]; decide), if_pos hfail]
    exact ⟨_, rfl, rfl, rfl⟩
  · intro hc hsucc hfail
    rw [ProviderB.processPaymentB_wire cfg a c _ h1 h2 hc,
      ProviderB.handleWireB_body cfg status bA (.parsed rB) (by omega) (by omega)]
    simp only [ProviderB.handleBody]
    rw [if_neg hsucc, if_neg hfail]
    exact ⟨_, rfl, rfl, rfl⟩
  · exact ProviderB.processPayment_isSome_state cfg a c status re bA rB
  · intro hc htid hcur hts hdecl
    rw [ProviderA.processPaymentA_wire cfg a c _ h1 h2 hc,
      ProviderA.handleWireA_body cfg status (.parsed rA) bB (by omega) (by omega) (by omega)]
    simp only [ProviderA.handleBody]
    have hfields : ¬(rA.transactionId = "" ∨ rA.status = "" ∨ rA.currency = "") := by
      rintro (h | h | h)
      · exact htid h
      · rw [hdecl] at h
        exact absurd h (by decide)
      · exact hcur h
    rw [if_neg hfields, if_neg hts, if_neg (by rw [hdecl]; decide), if_pos hdecl]
    exact ⟨_, rfl, rfl, rfl⟩
  · intro hc htid hcur hts hne happ hdecl
    rw [ProviderA.processPaymentA_wire cfg a c _ h1 h2 hc,
      ProviderA.handleWireA_body cfg status (.parsed rA) bB (by omega) (by omega) (by omega)]
    simp only [ProviderA.handleBody]
    have hfields : ¬(rA.transactionId = "" ∨ rA.status = "" ∨ rA.currency = "") := by
      rintro (h | h | h)
      · exact htid h
      · exact hne h
      · exact hcur h
    rw [if_neg hfields, if_neg hts, if_neg happ, if_neg hdecl]
    exact ⟨_, rfl, rfl, rfl⟩
  · exact ProviderA.processPayment_isSome_status cfg a c status re rA bB

/-- C8 amended, witnessed: ProviderB's "FAILED" mock yields
`CARD_DECLINED`; ProviderA's DECLINED mock (with all fields present)
yields `CARD_DECLINED`, neither retryable. -/
theorem c8_amended_discriminator_mapping_witness :
    (∃ e, ProviderB.ProcessPayment cfgB 100 "USD"
        (.resp 200 false .malformed (.parsed failedBodyB)) = (none, some e)
      ∧ e.code = ErrCardDeclined ∧ e.retryable = false) ∧
    (∃ e, ProviderA.ProcessPayment cfgA 100 "USD"
        (.resp 200 false
          (.parsed { transactionId := "TXN-TEST-999", status := "DECLINED", amount := 999,
                     currency := "USD", timestamp := 63839000000 }) .malformed)
        = (none, some e)
      ∧ e.code = ErrCardDeclined ∧ e.retryable = false) := by
  have hB := c8_amended_discriminator_mapping cfgB 100 "USD" 200 false .malformed .malformed
    approvedBodyA failedBodyB (by norm_num) (by norm_num [cfgB]) (by norm_num)
    (by norm_num) |>.1 (by decide) rfl
  have hA := c8_amended_discriminator_mapping cfgA 100 "USD" 200 false
    (.parsed { transactionId := "TXN-TEST-999", status := "DECLINED", amount := 999,
               currency := "USD", timestamp := 63839000000 }) .malformed
    { transactionId := "TXN-TEST-999", status := "DECLINED", amount := 999,
      currency := "USD", timestamp := 63839000000 } failedBodyB
    (by norm_num) (by norm_num [cfgA]) (by norm_num)
    (by norm_num) |>.2.2.2.1 (Or.inl rfl) (by decide) (by decide) (by decide) rfl
  exact ⟨hB, hA⟩

end Yuno
